import Mathlib

set_option maxRecDepth 10000

/-
Verification of the DPA analyzer pipeline (src/dpa_analyzer.py and
src/knowledge_base.py) via a shallow embedding.

Pure string manipulation is modelled on `List Char`; Python `str` methods
(`strip`, `lower`, `replace`, `find`, `rfind`, slicing, `in`, `endswith`,
`title`) are embedded as functions whose semantics follow CPython on the
ASCII inputs the program manipulates.  `json.loads` is embedded as a total
recursive-descent parser `json_loads : String -> Option Json` over a JSON
value type whose numbers are integers (the program only ever produces and
inspects integer scores); parse failure (a raised `JSONDecodeError` in
Python) is `none`.  Network I/O is modelled by an explicit outcome type,
and the byte-level PDF/DOCX/UTF-8 decoders of the external libraries are
parameters of the extraction function.
-/

namespace DPA

/-- The brace characters, named to keep them out of string literals. -/
def lbrace : Char := Char.ofNat 123

def rbrace : Char := Char.ofNat 125

def quoteChar : Char := Char.ofNat 34

def backslashChar : Char := Char.ofNat 92

/-- Python whitespace stripped by `str.strip()` (ASCII fragment). -/
def isPyWs (c : Char) : Bool :=
  c == ' ' || c == Char.ofNat 9 || c == Char.ofNat 10 || c == Char.ofNat 13 ||
  c == Char.ofNat 11 || c == Char.ofNat 12

/-- Embedding of `str.strip()`. -/
def pyStrip (s : String) : String :=
  String.mk (((s.toList.dropWhile isPyWs).reverse.dropWhile isPyWs).reverse)

/-- ASCII lower-casing of one character, as `str.lower()` does on ASCII. -/
def pyLowerChar (c : Char) : Char :=
  if 'A' ≤ c ∧ c ≤ 'Z' then Char.ofNat (c.toNat + 32) else c

/-- Embedding of `str.lower()`. -/
def pyLower (s : String) : String :=
  String.mk (s.toList.map pyLowerChar)

/-- Substring occurrence test on character lists: does `needle` occur as a
contiguous run inside `hay`? -/
def infixAt (needle : List Char) : List Char → Bool
  | [] => needle.isEmpty
  | c :: rest => needle.isPrefixOf (c :: rest) || infixAt needle rest

/-- Embedding of the Python substring test `needle in hay`. -/
def pyIn (needle hay : String) : Bool :=
  infixAt needle.toList hay.toList

/-- Embedding of `s.endswith(suffix2)`. -/
def pyEndsWith (s suffix2 : String) : Bool :=
  suffix2.toList.reverse.isPrefixOf s.toList.reverse

/-- Worker for `str.replace`: left-to-right, non-overlapping, every
occurrence.  Fuel is the length of the scanned list, which suffices because
each step consumes at least one character when `old` is nonempty. -/
def pyReplaceAux (old new : List Char) : Nat → List Char → List Char
  | 0, l => l
  | _ + 1, [] => []
  | fuel + 1, c :: rest =>
    if old ≠ [] ∧ old.isPrefixOf (c :: rest) then
      new ++ pyReplaceAux old new fuel ((c :: rest).drop old.length)
    else
      c :: pyReplaceAux old new fuel rest

/-- Embedding of `s.replace(old, new)` for nonempty `old`. -/
def pyReplace (s old new : String) : String :=
  String.mk (pyReplaceAux old.toList new.toList s.toList.length s.toList)

/-- Embedding of `s.find(c)` for a single character, as an optional index. -/
def pyFindChar (s : String) (c : Char) : Option Nat :=
  s.toList.findIdx? (fun d => d == c)

/-- Embedding of `s.rfind(c)` for a single character, as an optional index. -/
def pyRFindChar (s : String) (c : Char) : Option Nat :=
  match s.toList.reverse.findIdx? (fun d => d == c) with
  | some i => some (s.toList.length - 1 - i)
  | none => none

/-- Embedding of the slice `s[a:b]` for `0 ≤ a` and `0 ≤ b` (the only case
the program reaches). -/
def pySlice (s : String) (a b : Int) : String :=
  String.mk ((s.toList.drop a.toNat).take (b.toNat - a.toNat))

/-- A character is ASCII alphabetic (for `str.title`). -/
def isAsciiAlpha (c : Char) : Bool :=
  ('a' ≤ c && c ≤ 'z') || ('A' ≤ c && c ≤ 'Z')

def pyUpperChar (c : Char) : Char :=
  if 'a' ≤ c ∧ c ≤ 'z' then Char.ofNat (c.toNat - 32) else c

/-- Worker for `str.title`: the Bool records whether the previous character
was alphabetic. -/
def pyTitleAux : Bool → List Char → List Char
  | _, [] => []
  | prev, c :: rest =>
    let alpha := isAsciiAlpha c
    (if alpha then (if prev then pyLowerChar c else pyUpperChar c) else c) ::
      pyTitleAux alpha rest

/-- Embedding of `s.title()` on ASCII text. -/
def pyTitle (s : String) : String :=
  String.mk (pyTitleAux false s.toList)

/-- JSON values as CPython `json` materialises them, with integer numbers
(the analyzer only produces and reads integer scores). -/
inductive Json where
  | null : Json
  | bool (b : Bool) : Json
  | num (n : Int) : Json
  | str (s : String) : Json
  | arr (items : List Json) : Json
  | obj (members : List (String × Json)) : Json

/-- JSON structural whitespace accepted between tokens. -/
def jsonWs (c : Char) : Bool :=
  c == ' ' || c == Char.ofNat 9 || c == Char.ofNat 10 || c == Char.ofNat 13

def skipWs (l : List Char) : List Char :=
  l.dropWhile jsonWs

/-- Decoding of a JSON string escape (the `\\uXXXX` form, unused by the
program, is not modelled). -/
def escChar (c : Char) : Option Char :=
  if c == quoteChar then some quoteChar
  else if c == backslashChar then some backslashChar
  else if c == '/' then some '/'
  else if c == 'n' then some (Char.ofNat 10)
  else if c == 't' then some (Char.ofNat 9)
  else if c == 'r' then some (Char.ofNat 13)
  else if c == 'b' then some (Char.ofNat 8)
  else if c == 'f' then some (Char.ofNat 12)
  else none

/-- Parse the body of a JSON string (after the opening quote), returning
the decoded characters and the rest of the input.  Raw control characters
are rejected as in CPython strict mode.  Fuel bounds the number of steps;
the remaining input length plus one is always enough. -/
def parseStringAux : Nat → List Char → Option (List Char × List Char)
  | 0, _ => none
  | _ + 1, [] => none
  | fuel + 1, c :: rest =>
    if c == quoteChar then some ([], rest)
    else if c == backslashChar then
      match rest with
      | [] => none
      | e :: rest2 =>
        match escChar e with
        | some d =>
          match parseStringAux fuel rest2 with
          | some (cs, r) => some (d :: cs, r)
          | none => none
        | none => none
    else if c.toNat < 32 then none
    else
      match parseStringAux fuel rest with
      | some (cs, r) => some (c :: cs, r)
      | none => none

def parseStringBody (l : List Char) : Option (List Char × List Char) :=
  parseStringAux (l.length + 1) l

def digitsToInt (ds : List Char) : Int :=
  ds.foldl (fun a c => a * 10 + ((c.toNat : Int) - 48)) 0

/-- Parse a JSON integer literal (fractions and exponents, which the
program never produces, are rejected rather than read as floats). -/
def parseNum (l : List Char) : Option (Json × List Char) :=
  let p := match l with
    | '-' :: rest => (true, rest)
    | _ => (false, l)
  let q := p.2.span Char.isDigit
  if q.1 = [] then none
  else if q.1.length > 1 ∧ q.1.head? = some '0' then none
  else
    match q.2 with
    | '.' :: _ => none
    | 'e' :: _ => none
    | 'E' :: _ => none
    | _ =>
      let n := digitsToInt q.1
      some (Json.num (if p.1 then -n else n), q.2)

mutual

/-- Recursive-descent JSON value parser; fuel bounds the number of values
and nesting levels, and `input length + 1` is always enough. -/
def parseVal : Nat → List Char → Option (Json × List Char)
  | 0, _ => none
  | fuel + 1, l =>
    match skipWs l with
    | [] => none
    | c :: rest =>
      if c == quoteChar then
        match parseStringBody rest with
        | some (cs, r) => some (Json.str (String.mk cs), r)
        | none => none
      else if c == lbrace then
        match skipWs rest with
        | d :: r2 =>
          if d == rbrace then some (Json.obj [], r2)
          else
            match parseMembers fuel (d :: r2) with
            | some (ms, r) => some (Json.obj ms, r)
            | none => none
        | [] => none
      else if c == '[' then
        match skipWs rest with
        | ']' :: r2 => some (Json.arr [], r2)
        | r2 =>
          match parseItems fuel r2 with
          | some (vs, r) => some (Json.arr vs, r)
          | none => none
      else
        match c :: rest with
        | 't' :: 'r' :: 'u' :: 'e' :: r => some (Json.bool true, r)
        | 'f' :: 'a' :: 'l' :: 's' :: 'e' :: r => some (Json.bool false, r)
        | 'n' :: 'u' :: 'l' :: 'l' :: r => some (Json.null, r)
        | l2 => parseNum l2

/-- Parse the comma-separated items of a nonempty array, consuming the
closing bracket. -/
def parseItems : Nat → List Char → Option (List Json × List Char)
  | 0, _ => none
  | fuel + 1, l =>
    match parseVal fuel l with
    | none => none
    | some (v, r) =>
      match skipWs r with
      | ',' :: r2 =>
        match parseItems fuel r2 with
        | some (vs, r3) => some (v :: vs, r3)
        | none => none
      | ']' :: r2 => some ([v], r2)
      | _ => none

/-- Parse the comma-separated members of a nonempty object, consuming the
closing brace. -/
def parseMembers : Nat → List Char → Option (List (String × Json) × List Char)
  | 0, _ => none
  | fuel + 1, l =>
    match skipWs l with
    | c :: rest =>
      if c == quoteChar then
        match parseStringBody rest with
        | none => none
        | some (k, r) =>
          match skipWs r with
          | ':' :: r2 =>
            match parseVal fuel r2 with
            | none => none
            | some (v, r3) =>
              match skipWs r3 with
              | ',' :: r4 =>
                match parseMembers fuel r4 with
                | some (ms, r5) => some ((String.mk k, v) :: ms, r5)
                | none => none
              | d :: r4 =>
                if d == rbrace then some ([(String.mk k, v)], r4) else none
              | [] => none
          | _ => none
      else none
    | [] => none

end

/-- Embedding of `json.loads` on the full input string: a value followed by
nothing but whitespace, `none` on any `JSONDecodeError`. -/
def json_loads (s : String) : Option Json :=
  match parseVal (s.toList.length + 1) s.toList with
  | some (v, r) => if skipWs r = [] then some v else none
  | none => none

/-- First lookup in an association list, as a Python dict read. -/
def jLookup : List (String × Json) → String → Option Json
  | [], _ => none
  | (k, v) :: rest, key => if k = key then some v else jLookup rest key

/-- Read a field of a JSON object. -/
def jGet (j : Json) (key : String) : Option Json :=
  match j with
  | Json.obj ms => jLookup ms key
  | _ => none

/-- Read a field two levels down. -/
def jGet2 (j : Json) (k1 k2 : String) : Option Json :=
  (jGet j k1).bind (fun x => jGet x k2)

/-- The first entry of the `section_analysis` array of a result. -/
def firstSection (j : Json) : Option Json :=
  match jGet j "section_analysis" with
  | some (Json.arr (s :: _)) => some s
  | _ => none

/-- `self.model_name` of `DPAAnalyzer.__init__` (src/dpa_analyzer.py:18). -/
def model_name : String := "llama3.2:1b"

/-- The `section` titles of the `review_sections` list of the static
playbook built by `DPAKnowledgeBase._create_playbook`
(src/knowledge_base.py:19-178); only the entry count of this list is read
by the analyzer. -/
def review_sections : List String :=
  ["1. Parties and Roles",
   "2. Purpose and Scope of Processing",
   "3. Data Subject Rights",
   "4. Security Measures",
   "5. International Transfers",
   "6. Subprocessing",
   "7. Data Retention and Deletion",
   "8. Breach Notification",
   "9. Auditing and Compliance",
   "10. Liability and Indemnification"]

/-- The `key_terms` table of `_fallback_analysis`
(src/dpa_analyzer.py:221-231): clause category name paired with its keyword
variants. -/
def key_terms : List (String × List String) :=
  [("data controller", ["data controller", "controller"]),
   ("data processor", ["data processor", "processor"]),
   ("personal data", ["personal data", "personally identifiable"]),
   ("gdpr", ["gdpr", "general data protection regulation"]),
   ("security measures", ["security measures", "technical safeguards", "encryption"]),
   ("data breach", ["data breach", "breach notification", "security incident"]),
   ("data subject rights", ["data subject rights", "right to access", "right to erasure"]),
   ("retention", ["retention period", "data retention", "deletion"]),
   ("subprocessor", ["subprocessor", "sub-processor", "third party"])]

/-- Does any keyword variant of a category occur in the lower-cased text
(`any(keyword in text_lower for keyword in keywords)`)? -/
def clauseFound (text_lower : String) (keywords : List String) : Bool :=
  keywords.any (fun k => pyIn k text_lower)

/-- The finding string `_fallback_analysis` appends for a present category
(src/dpa_analyzer.py:236; the leading marker characters are the ones
literally present in the source file). -/
def findingLine (clause : String) : String :=
  "âœ“ " ++ pyTitle clause ++ " provisions identified"

/-- The category loop of `_fallback_analysis` (src/dpa_analyzer.py:233-240)
over a list of categories: produces the findings, the missing clause names
and the total score delta accumulated relative to the starting score. -/
def scanClauses (text_lower : String) :
    List (String × List String) → List String × List String × Int
  | [] => ([], [], 0)
  | (clause, keywords) :: rest =>
    let r := scanClauses text_lower rest
    if clauseFound text_lower keywords then
      (findingLine clause :: r.1, r.2.1, r.2.2 + 5)
    else
      (r.1, clause :: r.2.1, r.2.2 - 10)

/-- Embedding of `DPAAnalyzer._fallback_analysis`
(src/dpa_analyzer.py:208-274). -/
def fallback_analysis (text_content : String) : Json :=
  let text_lower := pyLower text_content
  let scan := scanClauses text_lower key_terms
  let findings := scan.1
  let missing_clauses := scan.2.1
  let score : Int := 70 + scan.2.2
  let risk_level : String :=
    if 80 ≤ score then "low" else if 60 ≤ score then "medium" else "high"
  Json.obj
    [("overall_assessment", Json.obj
       [("compliance_score", Json.num (max 0 (min 100 score))),
        ("risk_level", Json.str risk_level),
        ("executive_summary", Json.str
          ("Rule-based analysis completed. " ++ toString findings.length ++
           " key provisions identified, " ++ toString missing_clauses.length ++
           " clauses may be missing."))]),
     ("section_analysis", Json.arr
       [Json.obj
         [("section", Json.str "Automated Analysis"),
          ("status", Json.str "partial_review"),
          ("score", Json.num score),
          ("findings", Json.arr (findings.map Json.str)),
          ("recommendations", Json.arr
            [Json.str "Complete LLM setup for detailed analysis",
             Json.str "Manual legal review recommended"]),
          ("red_flags", Json.arr
            [Json.str "LLM analysis unavailable - limited assessment performed"])]]),
     ("missing_clauses", Json.arr (missing_clauses.map Json.str)),
     ("strengths", Json.arr (findings.map Json.str)),
     ("critical_issues", Json.arr
       [Json.str "LLM service unavailable", Json.str "Manual review required"]),
     ("recommendations", Json.arr
       [Json.str "Set up Ollama with Llama model for detailed analysis",
        Json.str "Conduct manual legal review",
        Json.str "Verify all GDPR Article 28 requirements"])]

/-- The fixed degraded result returned when JSON recovery fails
(src/dpa_analyzer.py:181-201). -/
def parse_failure_result : Json :=
  Json.obj
    [("overall_assessment", Json.obj
       [("compliance_score", Json.num 70),
        ("risk_level", Json.str "medium"),
        ("executive_summary", Json.str
          "AI analysis encountered formatting issues, using fallback assessment")]),
     ("section_analysis", Json.arr
       [Json.obj
         [("section", Json.str "AI Analysis"),
          ("status", Json.str "unclear"),
          ("score", Json.num 70),
          ("findings", Json.arr
            [Json.str "AI generated response but with formatting issues"]),
          ("recommendations", Json.arr [Json.str "Manual review recommended"]),
          ("red_flags", Json.arr [Json.str "AI response parsing failed"])]]),
     ("missing_clauses", Json.arr []),
     ("strengths", Json.arr [Json.str "Document processed by AI"]),
     ("critical_issues", Json.arr
       [Json.str "Response formatting needs improvement"]),
     ("recommendations", Json.arr
       [Json.str "Consider upgrading to larger AI model",
        Json.str "Manual legal review advised"])]

/-- Stage 2 of recovery (src/dpa_analyzer.py:166-176): bracket extraction
with the source's `json_start != -1 and json_end != -1` guard, where
`json_end` is `rfind + 1`, followed by the two `replace` normalizations and
a parse attempt. -/
def stage2Parse (cleaned : String) : Option Json :=
  let json_start : Int := match pyFindChar cleaned lbrace with
    | some i => (i : Int)
    | none => -1
  let json_end : Int := (match pyRFindChar cleaned rbrace with
    | some i => (i : Int)
    | none => -1) + 1
  if json_start ≠ -1 ∧ json_end ≠ -1 then
    let json_content := pySlice cleaned json_start json_end
    let json_content := pyReplace json_content "\n" " "
    let json_content := pyReplace json_content "  " " "
    json_loads json_content
  else
    none

/-- The JSON recovery of `_call_ollama_api` on a 200 body
(src/dpa_analyzer.py:159-201): strip, direct parse, bracket extraction,
and the fixed degraded result when everything fails (every exception of
the inner stages is caught by the `except` at line 177). -/
def recover (response_text : String) : Json :=
  let cleaned := pyStrip response_text
  match json_loads cleaned with
  | some j => j
  | none =>
    match stage2Parse cleaned with
    | some j => j
    | none => parse_failure_result

/-- Outcome of the single HTTP POST to the model endpoint: a response with
a status and the `response` text field of its body, or a raised transport
error (connection failure or timeout). -/
inductive NetworkOutcome where
  | response (status : Nat) (body : String) : NetworkOutcome
  | transportError (message : String) : NetworkOutcome

/-- Embedding of `DPAAnalyzer._call_ollama_api`
(src/dpa_analyzer.py:139-206) as a function of the network outcome: on a
200 status the recovered JSON, otherwise the wrapped raised error. -/
def call_ollama_api : NetworkOutcome → Except String Json
  | NetworkOutcome.response status body =>
    if status = 200 then Except.ok (recover body)
    else Except.error
      ("LLM API call failed: Ollama API call failed with status " ++ toString status)
  | NetworkOutcome.transportError message =>
    Except.error ("LLM API call failed: " ++ message)

/-- Embedding of `DPAAnalyzer._perform_ai_analysis`
(src/dpa_analyzer.py:77-98): one model call; any exception from it selects
the rule-based fallback. -/
def perform_ai_analysis (outcome : NetworkOutcome) (text_content : String) : Json :=
  match call_ollama_api outcome with
  | Except.ok r => r
  | Except.error _ => fallback_analysis text_content

/-- The model call failed: non-200 status, transport error or timeout. -/
def modelFailed : NetworkOutcome → Bool
  | NetworkOutcome.response status _ => status ≠ 200
  | NetworkOutcome.transportError _ => true

/-- Overwrite-or-append of a key in insertion-ordered members, as a Python
dict item assignment. -/
def setAssoc : List (String × Json) → String → Json → List (String × Json)
  | [], key, v => [(key, v)]
  | (k, w) :: rest, key, v =>
    if k = key then (k, v) :: rest else (k, w) :: setAssoc rest key v

/-- Item assignment `j[key] = v`; `none` when `j` is not an object (Python
would raise a `TypeError` there). -/
def jsonSetKey (j : Json) (key : String) (v : Json) : Option Json :=
  match j with
  | Json.obj ms => some (Json.obj (setAssoc ms key v))
  | _ => none

/-- Embedding of `DPAAnalyzer._structure_analysis`
(src/dpa_analyzer.py:276-293).  The float returned by the event-loop clock
at the moment of assembly is the integer parameter `timestamp`. -/
def structure_analysis (analysis_result : Json) (original_text : String)
    (timestamp : Int) : Option Json :=
  (jsonSetKey analysis_result "metadata" (Json.obj
     [("document_length", Json.num (original_text.length : Int)),
      ("analysis_timestamp", Json.num timestamp),
      ("analyzer_version", Json.str "1.0.0"),
      ("model_used", Json.str model_name)])).bind
  (fun r => jsonSetKey r "playbook_reference" (Json.obj
     [("sections_reviewed", Json.num (review_sections.length : Int)),
      ("playbook_version", Json.str "1.0.0")]))

/-- Embedding of `DPAAnalyzer._extract_text` (src/dpa_analyzer.py:39-51).
The byte-level extractors of the external libraries (`PyPDF2`, `docx`,
`bytes.decode`) are parameters; the surrounding `except` wraps any of
their failures, and the unsupported-format branch, into the
`Text extraction failed:` message. -/
def extract_text (pdfExtract docxExtract utf8Decode : List Nat → Except String String)
    (file_content : List Nat) (filename : String) : Except String String :=
  let dispatched : Except String String :=
    if pyEndsWith (pyLower filename) ".pdf" then pdfExtract file_content
    else if pyEndsWith (pyLower filename) ".docx" then docxExtract file_content
    else if pyEndsWith (pyLower filename) ".txt" then utf8Decode file_content
    else Except.error ("Unsupported file format: " ++ filename)
  match dispatched with
  | Except.ok t => Except.ok t
  | Except.error e => Except.error ("Text extraction failed: " ++ e)

/-- A JSON value is a string. -/
def isStrVal : Json → Bool
  | Json.str _ => true
  | _ => false

def isStrList : List Json → Bool
  | [] => true
  | Json.str _ :: rest => isStrList rest
  | _ => false

/-- A JSON value is an array of strings. -/
def isStrArr : Json → Bool
  | Json.arr xs => isStrList xs
  | _ => false

def isRiskLevel (s : String) : Bool :=
  s == "low" || s == "medium" || s == "high"

def isStatusVal (s : String) : Bool :=
  s == "compliant" || s == "non_compliant" || s == "unclear" || s == "partial_review"

/-- A present field satisfying a check. -/
def checkOpt (o : Option Json) (p : Json → Bool) : Bool :=
  match o with
  | some v => p v
  | none => false

/-- An integer score field; when `bounds` is set it must lie in 0..100. -/
def numOk (bounds : Bool) : Json → Bool
  | Json.num n => !bounds || decide (0 ≤ n ∧ n ≤ 100)
  | _ => false

def strOk (p : String → Bool) : Json → Bool
  | Json.str s => p s
  | _ => false

/-- Schema check of one `section_analysis` entry. -/
def sectionOk (bounds : Bool) (j : Json) : Bool :=
  checkOpt (jGet j "section") isStrVal &&
  checkOpt (jGet j "status") (strOk isStatusVal) &&
  checkOpt (jGet j "score") (numOk bounds) &&
  checkOpt (jGet j "findings") isStrArr &&
  checkOpt (jGet j "recommendations") isStrArr &&
  checkOpt (jGet j "red_flags") isStrArr

def sectionsOk (bounds : Bool) : List Json → Bool
  | [] => true
  | s :: rest => sectionOk bounds s && sectionsOk bounds rest

/-- Schema check of the `overall_assessment` object. -/
def overallOk (bounds : Bool) (j : Json) : Bool :=
  checkOpt (jGet j "compliance_score") (numOk bounds) &&
  checkOpt (jGet j "risk_level") (strOk isRiskLevel) &&
  checkOpt (jGet j "executive_summary") isStrVal

/-- Schema check of the canonical `AnalysisResult` core (the six fields a
recovery or fallback result must carry); `bounds` controls whether the
integer scores are also required to lie in 0..100. -/
def coreSchemaCheck (bounds : Bool) (j : Json) : Bool :=
  checkOpt (jGet j "overall_assessment") (overallOk bounds) &&
  checkOpt (jGet j "section_analysis")
    (fun v => match v with
      | Json.arr xs => sectionsOk bounds xs
      | _ => false) &&
  checkOpt (jGet j "missing_clauses") isStrArr &&
  checkOpt (jGet j "strengths") isStrArr &&
  checkOpt (jGet j "critical_issues") isStrArr &&
  checkOpt (jGet j "recommendations") isStrArr

/-- Full schema validity: every core field present and type-correct, with
every score an integer in 0..100 and the enumerations respected. -/
def isCoreSchemaValid (j : Json) : Bool := coreSchemaCheck true j

/-- Structural schema completeness: every core field present and
type-correct (score ranges checked separately). -/
def hasCoreFields (j : Json) : Bool := coreSchemaCheck false j

/-- The `overall_assessment.compliance_score` field of a result. -/
def overallScoreOf (j : Json) : Option Json :=
  jGet2 j "overall_assessment" "compliance_score"

/-- The `overall_assessment.risk_level` field of a result. -/
def riskOf (j : Json) : Option Json :=
  jGet2 j "overall_assessment" "risk_level"

/-- The `overall_assessment.executive_summary` field of a result. -/
def summaryOf (j : Json) : Option Json :=
  jGet2 j "overall_assessment" "executive_summary"

/-- The `score` field of the first `section_analysis` entry of a result. -/
def sectionScoreOf (j : Json) : Option Json :=
  (firstSection j).bind (fun s => jGet s "score")

/-- Number of clause categories whose keyword variants occur in the
lower-cased input text. -/
def matchCount (text_content : String) : Nat :=
  (key_terms.filter (fun p => clauseFound (pyLower text_content) p.2)).length

/-- A document text containing a keyword variant of every one of the 9
clause categories. -/
def allNineText : String :=
  "The data controller and data processor protect personal data under gdpr using encryption, breach notification, right to access, data retention and subprocessor approval."

/-- A model response wrapping a schema-valid object in commentary. -/
def c4Response : String :=
  "Here is the result: \x7b\"overall_assessment\": \x7b\"compliance_score\": 85, \"risk_level\": \"low\", \"executive_summary\": \"Good DPA\"\x7d, \"section_analysis\": [], \"missing_clauses\": [], \"strengths\": [], \"critical_issues\": [], \"recommendations\": []\x7d Thanks!"

/-- The object embedded in `c4Response`. -/
def c4Embedded : Json :=
  Json.obj
    [("overall_assessment", Json.obj
       [("compliance_score", Json.num 85),
        ("risk_level", Json.str "low"),
        ("executive_summary", Json.str "Good DPA")]),
     ("section_analysis", Json.arr []),
     ("missing_clauses", Json.arr []),
     ("strengths", Json.arr []),
     ("critical_issues", Json.arr []),
     ("recommendations", Json.arr [])]

/-- A model response that is directly a schema-valid JSON object with
surrounding whitespace. -/
def c8Response : String :=
  "  \x7b\"overall_assessment\": \x7b\"compliance_score\": 80, \"risk_level\": \"low\", \"executive_summary\": \"ok\"\x7d, \"section_analysis\": [\x7b\"section\": \"Key Provisions\", \"status\": \"compliant\", \"score\": 80, \"findings\": [\"a\"], \"recommendations\": [\"b\"], \"red_flags\": []\x7d], \"missing_clauses\": [], \"strengths\": [\"s\"], \"critical_issues\": [], \"recommendations\": [\"r\"]\x7d  "

/-- The value `c8Response` parses to. -/
def c8Value : Json :=
  Json.obj
    [("overall_assessment", Json.obj
       [("compliance_score", Json.num 80),
        ("risk_level", Json.str "low"),
        ("executive_summary", Json.str "ok")]),
     ("section_analysis", Json.arr
       [Json.obj
         [("section", Json.str "Key Provisions"),
          ("status", Json.str "compliant"),
          ("score", Json.num 80),
          ("findings", Json.arr [Json.str "a"]),
          ("recommendations", Json.arr [Json.str "b"]),
          ("red_flags", Json.arr [])]]),
     ("missing_clauses", Json.arr []),
     ("strengths", Json.arr [Json.str "s"]),
     ("critical_issues", Json.arr []),
     ("recommendations", Json.arr [Json.str "r"])]

/-- The category loop assigns every category to exactly one of the two
lists. -/
theorem scanClauses_length_sum (tl : String) (ts : List (String × List String)) :
    (scanClauses tl ts).1.length + (scanClauses tl ts).2.1.length = ts.length := by
  induction ts with
  | nil => rfl
  | cons p rest ih =>
    simp only [scanClauses]
    split <;> simp <;> omega

/-- The accumulated score delta of the category loop is +5 per finding and
-10 per missing clause. -/
theorem scanClauses_delta (tl : String) (ts : List (String × List String)) :
    (scanClauses tl ts).2.2 =
      5 * ((scanClauses tl ts).1.length : Int) -
        10 * ((scanClauses tl ts).2.1.length : Int) := by
  induction ts with
  | nil => rfl
  | cons p rest ih =>
    simp only [scanClauses]
    split <;> simp <;> omega

/-- The findings of the category loop are exactly the matched categories. -/
theorem scanClauses_findings_length (tl : String) (ts : List (String × List String)) :
    (scanClauses tl ts).1.length =
      (ts.filter (fun p => clauseFound tl p.2)).length := by
  induction ts with
  | nil => rfl
  | cons p rest ih =>
    simp only [scanClauses, List.filter_cons]
    split <;> simp_all

/-- A clause name in the missing list of the category loop comes from an
unmatched category of the table. -/
theorem mem_missing_scanClauses (tl : String) (ts : List (String × List String))
    (clause : String) (h : clause ∈ (scanClauses tl ts).2.1) :
    ∃ kws, (clause, kws) ∈ ts ∧ clauseFound tl kws = false := by
  induction ts with
  | nil => simp [scanClauses] at h
  | cons p rest ih =>
    simp only [scanClauses] at h
    by_cases hc : clauseFound tl p.2
    · rw [if_pos hc] at h
      obtain ⟨kws, hmem, hf⟩ := ih h
      exact ⟨kws, List.mem_cons_of_mem _ hmem, hf⟩
    · rw [if_neg hc] at h
      rcases List.mem_cons.mp h with heq | hmem
      · exact ⟨p.2, List.mem_cons.mpr (Or.inl (by rw [heq])), by simpa using hc⟩
      · obtain ⟨kws, hmem2, hf⟩ := ih hmem
        exact ⟨kws, List.mem_cons_of_mem _ hmem2, hf⟩

/-- Looking up the key just assigned returns the assigned value. -/
theorem jLookup_setAssoc_self (ms : List (String × Json)) (key : String) (v : Json) :
    jLookup (setAssoc ms key v) key = some v := by
  induction ms with
  | nil => simp [setAssoc, jLookup]
  | cons p rest ih =>
    obtain ⟨k, w⟩ := p
    by_cases hk : k = key
    · simp [setAssoc, jLookup, hk]
    · simp [setAssoc, jLookup, hk, ih]

/-- Assigning one key leaves lookups of other keys unchanged. -/
theorem jLookup_setAssoc_ne (ms : List (String × Json)) (k key : String) (v : Json)
    (h : k ≠ key) : jLookup (setAssoc ms k v) key = jLookup ms key := by
  induction ms with
  | nil => simp [setAssoc, jLookup, h]
  | cons p rest ih =>
    obtain ⟨k2, w⟩ := p
    by_cases hk : k2 = k
    · subst hk
      simp [setAssoc, jLookup, h]
    · simp [setAssoc, jLookup, hk, ih]

/-- A mapped list of string values passes the string-array check. -/
theorem isStrList_map (l : List String) : isStrList (l.map Json.str) = true := by
  induction l with
  | nil => rfl
  | cons s rest ih => simpa [isStrList]

/-- Deriving the risk level from the raw score and from the clamped score
agree, because clamping to 0..100 never crosses the 60 and 80 cutoffs. -/
theorem risk_of_clamped_eq (s : Int) :
    (if 80 ≤ s then "low" else if 60 ≤ s then "medium" else "high") =
      (if 80 ≤ max 0 (min 100 s) then "low"
       else if 60 ≤ max 0 (min 100 s) then "medium" else "high") := by
  simp only [le_max_iff, le_min_iff]
  split_ifs <;> first | rfl | omega

/-- The substring occurrence test decides list infixhood. -/
theorem infixAt_iff (needle hay : List Char) :
    infixAt needle hay = true ↔ needle <:+: hay := by
  induction hay with
  | nil => simp [infixAt, List.isEmpty_iff]
  | cons c rest ih =>
    simp [infixAt, List.isPrefixOf_iff_prefix, ih, List.infix_cons_iff]

/-- Unfolding of the compliance score of a fallback result. -/
theorem fallback_overall_score (t : String) :
    overallScoreOf (fallback_analysis t) =
      some (Json.num (max 0 (min 100 (70 + (scanClauses (pyLower t) key_terms).2.2)))) := rfl

/-- Unfolding of the risk level of a fallback result. -/
theorem fallback_risk (t : String) :
    riskOf (fallback_analysis t) =
      some (Json.str
        (if 80 ≤ 70 + (scanClauses (pyLower t) key_terms).2.2 then "low"
         else if 60 ≤ 70 + (scanClauses (pyLower t) key_terms).2.2 then "medium"
         else "high")) := rfl

/-- Unfolding of the executive summary of a fallback result. -/
theorem fallback_summary (t : String) :
    summaryOf (fallback_analysis t) =
      some (Json.str
        ("Rule-based analysis completed. " ++
         toString (scanClauses (pyLower t) key_terms).1.length ++
         " key provisions identified, " ++
         toString (scanClauses (pyLower t) key_terms).2.1.length ++
         " clauses may be missing.")) := rfl

/-- Unfolding of the section score of a fallback result: the raw,
unclamped score. -/
theorem fallback_section_score (t : String) :
    sectionScoreOf (fallback_analysis t) =
      some (Json.num (70 + (scanClauses (pyLower t) key_terms).2.2)) := rfl

/-- A clause name list paired with an unmatched-category check that a
missing clause name never fails: helper for excluding a matched category
from the missing list. -/
theorem not_mem_missing_scanClauses (tl clause : String)
    (ts : List (String × List String))
    (H : ∀ kws, (clause, kws) ∈ ts → clauseFound tl kws = true) :
    clause ∉ (scanClauses tl ts).2.1 := by
  intro hmem
  obtain ⟨kws, hin, hfalse⟩ := mem_missing_scanClauses _ _ _ hmem
  rw [H kws hin] at hfalse
  exact Bool.noConfusion hfalse

/-- A fallback result always carries every core schema field with the
right type and enumeration values (the score ranges are a separate
question). -/
theorem fallback_hasCoreFields (t : String) :
    hasCoreFields (fallback_analysis t) = true := by
  set sc := scanClauses (pyLower t) key_terms with hsc
  have h1 : isStrList (sc.1.map Json.str) = true := isStrList_map _
  have h2 : isStrList (sc.2.1.map Json.str) = true := isStrList_map _
  have h3 : isRiskLevel (if 80 ≤ 70 + sc.2.2 then "low"
      else if 60 ≤ 70 + sc.2.2 then "medium" else "high") = true := by
    split_ifs <;> rfl
  simp only [hasCoreFields, coreSchemaCheck, fallback_analysis, checkOpt, jGet,
    jLookup, overallOk, sectionsOk, sectionOk, numOk, strOk, isStrArr, isStrVal,
    isStatusVal, ← hsc]
  simp [jLookup, sectionsOk, sectionOk, checkOpt, jGet, numOk, strOk, isStrArr,
    isStrVal, isStrList, isStatusVal, h1, h2, h3]

/-- C1 (amended): the recovery routine never raises, and whenever both the
direct parse and the bracket-extraction stage fail (a failed parse or no
opening bracket), it returns the fixed degraded result, which is
schema-valid: compliance score 70, medium risk, one section with status
unclear, and the red flag that parsing failed (all fixed inside
`parse_failure_result`). -/
theorem c1_recover_degraded_when_both_stages_fail (s : String)
    (h1 : json_loads (pyStrip s) = none) (h2 : stage2Parse (pyStrip s) = none) :
    recover s = parse_failure_result ∧
      isCoreSchemaValid parse_failure_result = true := by
  refine ⟨?_, rfl⟩
  simp only [recover, h1, h2]

/-- Witness for C1 at a concrete non-JSON model response. -/
theorem c1_recover_degraded_when_both_stages_fail_witness :
    json_loads (pyStrip "The model replied with no JSON at all.") = none ∧
    stage2Parse (pyStrip "The model replied with no JSON at all.") = none ∧
    recover "The model replied with no JSON at all." = parse_failure_result :=
  ⟨rfl, rfl,
    (c1_recover_degraded_when_both_stages_fail
      "The model replied with no JSON at all." rfl rfl).1⟩

/-- Counterexample to C1 as stated: stage 1 returns whatever JSON value
parses, without schema validation, so the response text consisting of an
empty JSON object is returned as-is and is not a schema-valid
`AnalysisResult`. -/
theorem c1_counterexample_empty_object :
    recover "\x7b\x7d" = Json.obj [] ∧ isCoreSchemaValid (Json.obj []) = false :=
  ⟨rfl, rfl⟩

/-- C2: the fallback compliance score is the clamp to 0..100 of
70 + 5 per matched category - 10 per unmatched category over the 9 fixed
categories, the risk level is derived by the 80/60 cutoffs, and the two
boundary texts behave as claimed (all nine matched gives 100/low, none
matched gives 0/high). -/
theorem c2_fallback_score_formula (text_content : String) :
    (overallScoreOf (fallback_analysis text_content) =
       some (Json.num (max 0 (min 100
         (70 + 5 * (matchCount text_content : Int) -
          10 * (9 - (matchCount text_content : Int)))))) ∧
     riskOf (fallback_analysis text_content) =
       some (Json.str
         (if 80 ≤ max 0 (min 100
              (70 + 5 * (matchCount text_content : Int) -
               10 * (9 - (matchCount text_content : Int)))) then "low"
          else if 60 ≤ max 0 (min 100
              (70 + 5 * (matchCount text_content : Int) -
               10 * (9 - (matchCount text_content : Int)))) then "medium"
          else "high"))) ∧
    overallScoreOf (fallback_analysis allNineText) = some (Json.num 100) ∧
    riskOf (fallback_analysis allNineText) = some (Json.str "low") ∧
    overallScoreOf (fallback_analysis "") = some (Json.num 0) ∧
    riskOf (fallback_analysis "") = some (Json.str "high") := by
  have hs := scanClauses_length_sum (pyLower text_content) key_terms
  have hd := scanClauses_delta (pyLower text_content) key_terms
  have hf := scanClauses_findings_length (pyLower text_content) key_terms
  have hmc : matchCount text_content =
      (scanClauses (pyLower text_content) key_terms).1.length := by
    rw [matchCount, hf]
  have h9 : key_terms.length = 9 := rfl
  have e : 70 + (scanClauses (pyLower text_content) key_terms).2.2 =
      70 + 5 * (matchCount text_content : Int) -
        10 * (9 - (matchCount text_content : Int)) := by
    rw [hmc]
    omega
  refine ⟨⟨?_, ?_⟩, rfl, rfl, rfl, rfl⟩
  · rw [fallback_overall_score, e]
  · rw [fallback_risk, e, risk_of_clamped_eq]

/-- C3 (code bug): on the text containing all nine keyword categories the
fallback scorer puts the raw score 115 into `section_analysis[0].score`
without clamping, also on the full model-unavailable pipeline path, so the
returned result violates the 0..100 score contract that the claim (and the
code's own `get_analysis_template`) states. -/
theorem c3_section_score_exceeds_bounds :
    sectionScoreOf (fallback_analysis allNineText) = some (Json.num 115) ∧
    (structure_analysis
        (perform_ai_analysis (NetworkOutcome.transportError "connection refused")
          allNineText)
        allNineText 0).bind sectionScoreOf = some (Json.num 115) ∧
    isCoreSchemaValid (fallback_analysis allNineText) = false :=
  ⟨rfl, rfl, rfl⟩

/-- C4: when the direct parse fails and the stripped response has a first
opening brace at index i and a last closing brace at index k, recovery
parses the inclusive substring between them, after replacing newlines with
spaces and collapsing space pairs, and returns its parse (the fixed
degraded result when even that fails). -/
theorem c4_bracket_extraction (s : String) (i k : Nat)
    (h1 : json_loads (pyStrip s) = none)
    (h2 : pyFindChar (pyStrip s) lbrace = some i)
    (h3 : pyRFindChar (pyStrip s) rbrace = some k) :
    recover s =
      (json_loads (pyReplace (pyReplace
          (String.mk (((pyStrip s).toList.drop i).take (k + 1 - i)))
          "\n" " ") "  " " ")).getD parse_failure_result := by
  have e1 : ((i : Int)).toNat = i := by omega
  have e2 : ((k : Int) + 1).toNat = k + 1 := by omega
  have hs2 : stage2Parse (pyStrip s) =
      json_loads (pyReplace (pyReplace
        (String.mk (((pyStrip s).toList.drop i).take (k + 1 - i)))
        "\n" " ") "  " " ") := by
    simp only [stage2Parse, h2, h3]
    rw [if_pos ⟨by omega, by omega⟩]
    simp only [pySlice, e1, e2]
  simp only [recover, h1, hs2]
  cases json_loads (pyReplace (pyReplace
      (String.mk (((pyStrip s).toList.drop i).take (k + 1 - i)))
      "\n" " ") "  " " ") <;> rfl

/-- Witness for C4: a schema-valid object embedded in commentary is
extracted and parsed by stage 2. -/
theorem c4_bracket_extraction_witness :
    json_loads (pyStrip c4Response) = none ∧
    pyFindChar (pyStrip c4Response) lbrace = some 20 ∧
    pyRFindChar (pyStrip c4Response) rbrace = some 231 ∧
    recover c4Response = c4Embedded := by
  refine ⟨rfl, rfl, rfl, ?_⟩
  rw [c4_bracket_extraction c4Response 20 231 rfl rfl rfl]
  rfl

/-- Counterexample to C5 as stated: a transport failure is absorbed, but
the result the caller then receives is not a fully schema-valid
`AnalysisResult` — on the all-nine-categories text the fallback result
carries the out-of-range section score 115, so the failure path does not
guarantee validity. -/
theorem c5_counterexample_invalid_result_on_failure_path :
    perform_ai_analysis (NetworkOutcome.transportError "connection reset")
        allNineText = fallback_analysis allNineText ∧
    isCoreSchemaValid (fallback_analysis allNineText) = false ∧
    sectionScoreOf (fallback_analysis allNineText) = some (Json.num 115) :=
  ⟨rfl, rfl, rfl⟩

/-- C5 (amended): any non-200 status, transport error or timeout of the
single model call is absorbed: the pipeline deterministically returns the
fallback scorer result (no retry, no propagated failure), an
`AnalysisResult` with every schema field present and type-correct —
though, per the counterexample, not necessarily one whose section score
lies in 0..100. -/
theorem c5_failure_absorbed (outcome : NetworkOutcome) (text_content : String)
    (h : modelFailed outcome = true) :
    perform_ai_analysis outcome text_content = fallback_analysis text_content ∧
    hasCoreFields (fallback_analysis text_content) = true := by
  constructor
  · cases outcome with
    | response status body =>
      have hs : status ≠ 200 := by simpa [modelFailed] using h
      simp [perform_ai_analysis, call_ollama_api, hs]
    | transportError m => rfl
  · exact fallback_hasCoreFields text_content

/-- Witness for C5 at a concrete timeout and a concrete 500 status. -/
theorem c5_failure_absorbed_witness :
    modelFailed (NetworkOutcome.transportError "timeout") = true ∧
    perform_ai_analysis (NetworkOutcome.transportError "timeout") "" =
      fallback_analysis "" ∧
    modelFailed (NetworkOutcome.response 500 "oops") = true ∧
    perform_ai_analysis (NetworkOutcome.response 500 "oops") "doc" =
      fallback_analysis "doc" :=
  ⟨rfl, (c5_failure_absorbed (NetworkOutcome.transportError "timeout") "" rfl).1,
   rfl, (c5_failure_absorbed (NetworkOutcome.response 500 "oops") "doc" rfl).1⟩

/-- C6: the assembler records the character count of the untruncated
text, the clock reading taken at assembly, the configured model identity
(also on the fallback path), and the static playbook section count, which
is 10. -/
theorem c6_assembler_metadata (ms : List (String × Json)) (original_text : String)
    (timestamp : Int) :
    (∃ r, structure_analysis (Json.obj ms) original_text timestamp = some r ∧
       jGet2 r "metadata" "document_length" =
         some (Json.num (original_text.length : Int)) ∧
       jGet2 r "metadata" "analysis_timestamp" = some (Json.num timestamp) ∧
       jGet2 r "metadata" "model_used" = some (Json.str model_name) ∧
       jGet2 r "playbook_reference" "sections_reviewed" =
         some (Json.num (review_sections.length : Int)) ∧
       review_sections.length = 10) ∧
    (structure_analysis (fallback_analysis original_text) original_text timestamp).bind
        (fun r => jGet2 r "metadata" "model_used") = some (Json.str model_name) := by
  constructor
  · refine ⟨_, rfl, ?_, ?_, ?_, ?_, rfl⟩
    · simp only [jGet2, jGet, Option.bind]
      rw [jLookup_setAssoc_ne _ _ _ _ (by decide), jLookup_setAssoc_self]
      rfl
    · simp only [jGet2, jGet, Option.bind]
      rw [jLookup_setAssoc_ne _ _ _ _ (by decide), jLookup_setAssoc_self]
      rfl
    · simp only [jGet2, jGet, Option.bind]
      rw [jLookup_setAssoc_ne _ _ _ _ (by decide), jLookup_setAssoc_self]
      rfl
    · simp only [jGet2, jGet, Option.bind]
      rw [jLookup_setAssoc_self]
      rfl
  · rfl

/-- C7: a filename whose case-insensitive suffix is none of .pdf, .docx
and .txt makes extraction fail with the unsupported-format error naming
the filename; the error branch carries no text. -/
theorem c7_unsupported_format
    (pdfExtract docxExtract utf8Decode : List Nat → Except String String)
    (file_content : List Nat) (filename : String)
    (h1 : pyEndsWith (pyLower filename) ".pdf" = false)
    (h2 : pyEndsWith (pyLower filename) ".docx" = false)
    (h3 : pyEndsWith (pyLower filename) ".txt" = false) :
    extract_text pdfExtract docxExtract utf8Decode file_content filename =
      Except.error ("Text extraction failed: " ++ ("Unsupported file format: " ++ filename)) := by
  simp [extract_text, h1, h2, h3]

/-- Witness for C7 at the legacy .doc suffix. -/
theorem c7_unsupported_format_witness :
    pyEndsWith (pyLower "contract.DOC") ".pdf" = false ∧
    pyEndsWith (pyLower "contract.DOC") ".docx" = false ∧
    pyEndsWith (pyLower "contract.DOC") ".txt" = false ∧
    extract_text (fun _ => Except.ok "p") (fun _ => Except.ok "d")
        (fun _ => Except.ok "t") [] "contract.DOC" =
      Except.error "Text extraction failed: Unsupported file format: contract.DOC" :=
  ⟨rfl, rfl, rfl,
    c7_unsupported_format (fun _ => Except.ok "p") (fun _ => Except.ok "d")
      (fun _ => Except.ok "t") [] "contract.DOC" rfl rfl rfl⟩

/-- C8: when the stripped response parses directly as a schema-valid
value, stage 1 of recovery returns that value unchanged. -/
theorem c8_stage1_identity (s : String) (j : Json)
    (h1 : json_loads (pyStrip s) = some j) (_h2 : isCoreSchemaValid j = true) :
    recover s = j := by
  simp only [recover, h1]

/-- Witness for C8 at a concrete schema-valid response with surrounding
whitespace. -/
theorem c8_stage1_identity_witness :
    json_loads (pyStrip c8Response) = some c8Value ∧
    isCoreSchemaValid c8Value = true ∧
    recover c8Response = c8Value :=
  ⟨rfl, rfl, c8_stage1_identity c8Response c8Value rfl rfl⟩

/-- C9: each of the 9 categories lands in exactly one of findings and
missing clauses, so the two lengths always sum to 9, and the executive
summary reports exactly those two counts. -/
theorem c9_findings_missing_partition (text_content : String) :
    (scanClauses (pyLower text_content) key_terms).1.length +
      (scanClauses (pyLower text_content) key_terms).2.1.length = 9 ∧
    summaryOf (fallback_analysis text_content) =
      some (Json.str
        ("Rule-based analysis completed. " ++
         toString (scanClauses (pyLower text_content) key_terms).1.length ++
         " key provisions identified, " ++
         toString (scanClauses (pyLower text_content) key_terms).2.1.length ++
         " clauses may be missing.")) :=
  ⟨by rw [scanClauses_length_sum]; rfl, fallback_summary _⟩

/-- C10: a text containing subprocessor or sub-processor contains
processor, a keyword variant of the data processor category, because
matching is plain substring search on the lower-cased text; hence that
category matches and data processor never lands in the missing clauses. -/
theorem c10_subprocessor_matches_processor (text_content : String)
    (h : pyIn "subprocessor" text_content = true ∨
         pyIn "sub-processor" text_content = true) :
    pyIn "processor" (pyLower text_content) = true ∧
    "data processor" ∉ (scanClauses (pyLower text_content) key_terms).2.1 := by
  have hproc : ("processor".toList) <:+: (pyLower text_content).toList := by
    have h1 : "processor".toList <:+: text_content.toList := by
      rcases h with h | h
      · exact List.IsInfix.trans (by decide) ((infixAt_iff _ _).mp h)
      · exact List.IsInfix.trans (by decide) ((infixAt_iff _ _).mp h)
    have h2 := h1.map pyLowerChar
    have h3 : ("processor".toList.map pyLowerChar) = "processor".toList := by decide
    rw [h3] at h2
    exact h2
  have hfound : pyIn "processor" (pyLower text_content) = true :=
    (infixAt_iff _ _).mpr hproc
  refine ⟨hfound, ?_⟩
  apply not_mem_missing_scanClauses
  intro kws hin
  have hkws : kws = ["data processor", "processor"] := by
    simp [key_terms] at hin
    exact hin
  rw [hkws]
  simp [clauseFound, hfound]

/-- Witness for C10 at a concrete text containing sub-processor. -/
theorem c10_subprocessor_matches_processor_witness :
    pyIn "sub-processor" "see the sub-processor annex" = true ∧
    pyIn "processor" (pyLower "see the sub-processor annex") = true ∧
    "data processor" ∉
      (scanClauses (pyLower "see the sub-processor annex") key_terms).2.1 :=
  ⟨rfl,
    (c10_subprocessor_matches_processor "see the sub-processor annex" (Or.inr rfl)).1,
    (c10_subprocessor_matches_processor "see the sub-processor annex" (Or.inr rfl)).2⟩

end DPA
